import Mathlib

/-!
Verification of the session multiplexing and streaming subsystem of the
aws_connector repository (src/src-tauri/src/terminal, src/src-tauri/src/logs,
src/src-tauri/src/aws/cloudwatch.rs and the command layer in
src/src-tauri/src/commands).

The Rust code is shallowly embedded: the registries (parking_lot-protected
HashMaps) become association lists over String keys, per-session mutable state
becomes explicit record passing, external effects (PTY allocation, process
spawn, the CloudWatch query, byte reads from the PTY) become explicit inputs,
and event emission to the Tauri sink becomes lists of emitted events.
-/

namespace AwsConnector

/-! ## Association-list model of the registry HashMaps

`parking_lot::Mutex<HashMap<String, Arc<Mutex<V>>>>` is modelled as a list of
key/value pairs with HashMap semantics: `insertKey` replaces an existing
binding in place, `eraseKey` removes it, `lookupKey` finds it. -/

def lookupKey {α : Type} : List (String × α) → String → Option α
  | [], _ => none
  | p :: rest, id => if p.1 = id then some p.2 else lookupKey rest id

def insertKey {α : Type} : List (String × α) → String → α → List (String × α)
  | [], k, v => [(k, v)]
  | p :: rest, k, v => if p.1 = k then (k, v) :: rest else p :: insertKey rest k v

def eraseKey {α : Type} : List (String × α) → String → List (String × α)
  | [], _ => []
  | p :: rest, k => if p.1 = k then eraseKey rest k else p :: eraseKey rest k

/-! ## Terminal data model (src/src-tauri/src/terminal/session.rs) -/

/-- Status of a terminal session (session.rs lines 45-54). -/
inductive SessionStatus where
  | Starting
  | Running
  | Closing
  | Closed
  | Error
deriving DecidableEq, Repr

/-- Type of terminal session (session.rs lines 18-43). Ports are u16 in the
source, modelled as Nat. -/
inductive SessionType where
  | EcsExec (cluster task container profile region : String)
  | SsmSession (instance_id profile region : String)
  | SsmPortForwarding (instance_id : String) (local_port remote_port : Nat)
      (remote_host : Option String) (profile region : String)
  | Local
deriving DecidableEq, Repr

/-- Information about a terminal session (session.rs lines 8-16). -/
structure SessionInfo where
  id : String
  title : String
  session_type : SessionType
  created_at : Int
  status : SessionStatus
deriving DecidableEq, Repr

/-- The child process handle (portable_pty Child). Only the observable effect
used by this codebase, the kill request, is modelled. -/
structure ChildHandle where
  killed : Bool
deriving DecidableEq, Repr

/-- Internal PTY session state (session.rs lines 56-65). The boxed writer is
modelled as the list of bytes written and flushed to the child so far; the
boxed reader is an identifier for the read half, present until the output
streamer takes it. -/
structure PtySession where
  info : SessionInfo
  writer : List Nat
  child : ChildHandle
  reader : Option Nat
  cols : Nat
  rows : Nat
deriving DecidableEq, Repr

/-- The session registry map contents (session.rs lines 67-70). -/
abbrev SessionRegistry := List (String × PtySession)

/-- Add a new session to the registry (session.rs lines 79-86). The id is
drawn from the handle; `HashMap::insert` replaces any existing binding. -/
def SessionRegistry.create_session (reg : SessionRegistry) (session : PtySession) :
    String × SessionRegistry :=
  (session.info.id, insertKey reg session.info.id session)

/-- Get a session by ID (session.rs lines 88-91). -/
def SessionRegistry.get_session (reg : SessionRegistry) (id : String) : Option PtySession :=
  lookupKey reg id

/-- Remove a session from the registry (session.rs lines 93-96):
`HashMap::remove` pops and returns the stored handle, if any. -/
def SessionRegistry.remove_session (reg : SessionRegistry) (id : String) :
    Option PtySession × SessionRegistry :=
  (lookupKey reg id, eraseKey reg id)

/-- List all session infos (session.rs lines 98-105): each stored session is
locked and its info cloned. -/
def SessionRegistry.list_sessions (reg : SessionRegistry) : List SessionInfo :=
  reg.map (fun p => p.2.info)

/-! ## Terminal errors (src/src-tauri/src/terminal/error.rs) -/

/-- The terminal error type (error.rs lines 4-26). -/
inductive TerminalError where
  | SessionNotFound (s : String)
  | PtyCreationFailed (s : String)
  | SpawnFailed (s : String)
  | WriteFailed (s : String)
  | ResizeFailed (s : String)
  | SessionAlreadyExists (s : String)
  | DecodeError (s : String)
deriving DecidableEq, Repr

/-- The Display strings of TerminalError (the thiserror attributes in
error.rs), which `From<TerminalError> for String` produces. -/
def TerminalError.toMessage : TerminalError → String
  | TerminalError.SessionNotFound s => "Session not found: " ++ s
  | TerminalError.PtyCreationFailed s => "Failed to create PTY: " ++ s
  | TerminalError.SpawnFailed s => "Failed to spawn process: " ++ s
  | TerminalError.WriteFailed s => "Failed to write to PTY: " ++ s
  | TerminalError.ResizeFailed s => "Failed to resize PTY: " ++ s
  | TerminalError.SessionAlreadyExists s => "Session already exists: " ++ s
  | TerminalError.DecodeError s => "Failed to decode input: " ++ s

/-! ## PTY operations (src/src-tauri/src/terminal/pty.rs) -/

def DEFAULT_COLS : Nat := 80

def DEFAULT_ROWS : Nat := 24

/-- Outcome of the external PTY system calls performed by create_pty_session
(pty.rs lines 19-54): openpty, spawn_command, try_clone_reader, take_writer.
These are environment effects, so they are an input of the embedding. -/
inductive PtyOutcome where
  | openptyFailed (e : String)
  | spawnFailed (e : String)
  | cloneReaderFailed (e : String)
  | takeWriterFailed (e : String)
  | success (child : ChildHandle) (readerHandle : Nat)
deriving DecidableEq, Repr

/-- Create a new PTY session with the given command (pty.rs lines 12-64).
The command line and environment are passed to the spawned process and do not
influence the control flow, which depends on the outcome of the four external
calls; each failure is mapped to the error variant the source maps it to. -/
def create_pty_session (info : SessionInfo) (command : String) (args : List String)
    (env : List (String × String)) (outcome : PtyOutcome) :
    Except TerminalError PtySession :=
  match outcome with
  | PtyOutcome.openptyFailed e => Except.error (TerminalError.PtyCreationFailed e)
  | PtyOutcome.spawnFailed e => Except.error (TerminalError.SpawnFailed e)
  | PtyOutcome.cloneReaderFailed e => Except.error (TerminalError.PtyCreationFailed e)
  | PtyOutcome.takeWriterFailed e => Except.error (TerminalError.PtyCreationFailed e)
  | PtyOutcome.success child readerHandle =>
    let _ := (command, args, env)
    Except.ok { info := info, writer := [], child := child,
                reader := some readerHandle, cols := DEFAULT_COLS, rows := DEFAULT_ROWS }

/-- Resize the PTY to new dimensions (pty.rs lines 66-77): the source stores
the new dimensions and returns Ok; the PTY master is no longer reachable, so
no resize reaches the child process and no other field is touched. -/
def resize_pty (session : PtySession) (cols rows : Nat) : Except TerminalError PtySession :=
  Except.ok { session with cols := cols, rows := rows }

/-- Write data to the PTY (pty.rs lines 79-93): write_all then flush on the
writer half. The writer sink is modelled as the list of delivered bytes. -/
def write_to_pty (session : PtySession) (data : List Nat) : Except TerminalError PtySession :=
  Except.ok { session with writer := session.writer ++ data }

/-! ## Base64 (the base64 crate's STANDARD engine used by pty.rs and
terminal_commands.rs) -/

/-- The standard base64 alphabet: index 0-63 to character. -/
def base64Char (n : Nat) : Char :=
  if n < 26 then Char.ofNat (65 + n)
  else if n < 52 then Char.ofNat (97 + (n - 26))
  else if n < 62 then Char.ofNat (48 + (n - 52))
  else if n = 62 then '+'
  else '/'

/-- The standard base64 alphabet: character back to index 0-63. -/
def base64CharIndex (c : Char) : Option Nat :=
  if 65 ≤ c.toNat ∧ c.toNat ≤ 90 then some (c.toNat - 65)
  else if 97 ≤ c.toNat ∧ c.toNat ≤ 122 then some (c.toNat - 97 + 26)
  else if 48 ≤ c.toNat ∧ c.toNat ≤ 57 then some (c.toNat - 48 + 52)
  else if c = '+' then some 62
  else if c = '/' then some 63
  else none

/-- Standard base64 encoding with padding, three input bytes per four output
characters. -/
def base64Chars : List Nat → List Char
  | a :: b :: c :: rest =>
    base64Char (a / 4) :: base64Char (a % 4 * 16 + b / 16) ::
    base64Char (b % 16 * 4 + c / 64) :: base64Char (c % 64) :: base64Chars rest
  | [a, b] =>
    [base64Char (a / 4), base64Char (a % 4 * 16 + b / 16), base64Char (b % 16 * 4), '=']
  | [a] => [base64Char (a / 4), base64Char (a % 4 * 16), '=', '=']
  | [] => []

/-- BASE64.encode of the base64 crate, on bytes modelled as Nat below 256. -/
def base64Encode (bytes : List Nat) : String :=
  String.mk (base64Chars bytes)

/-- Strict base64 decoding over four-character blocks with padding. -/
def base64DecodeChars : List Char → Except String (List Nat)
  | [] => Except.ok []
  | c1 :: c2 :: c3 :: c4 :: rest =>
    match base64CharIndex c1, base64CharIndex c2 with
    | some d1, some d2 =>
      if c3 = '=' then
        if c4 = '=' then
          if rest = [] then Except.ok [d1 * 4 + d2 / 16]
          else Except.error ("Invalid padding")
        else Except.error ("Invalid padding")
      else
        match base64CharIndex c3 with
        | some d3 =>
          if c4 = '=' then
            if rest = [] then Except.ok [d1 * 4 + d2 / 16, d2 % 16 * 16 + d3 / 4]
            else Except.error ("Invalid padding")
          else
            match base64CharIndex c4 with
            | some d4 =>
              match base64DecodeChars rest with
              | Except.ok tail =>
                Except.ok ((d1 * 4 + d2 / 16) :: (d2 % 16 * 16 + d3 / 4) ::
                           (d3 % 4 * 64 + d4) :: tail)
              | Except.error e => Except.error e
            | none => Except.error ("Invalid byte")
        | none => Except.error ("Invalid byte")
    | _, _ => Except.error ("Invalid byte")
  | _ => Except.error ("Invalid length")

/-- BASE64.decode of the base64 crate. -/
def base64Decode (s : String) : Except String (List Nat) :=
  base64DecodeChars s.data

/-! ## Output streamer (pty.rs start_output_stream, lines 95-124) -/

/-- One result of `reader.read(&mut buffer)` into the streamer's fixed
4096-byte buffer: `ok bytes` is a successful read that placed `bytes` (whose
length is the returned n, 0 meaning EOF) into the buffer, `err` is a read
error. -/
inductive ReadResult where
  | ok (bytes : List Nat)
  | err (msg : String)
deriving DecidableEq, Repr

/-- An event emitted on the Tauri sink by the terminal side, with its
session-scoped channel: terminal:output:{id}, terminal:closed:{id},
terminal:error:{id}. -/
inductive TermEvent where
  | output (session_id : String) (payload : String)
  | closed (session_id : String)
  | error (session_id : String) (msg : String)
deriving DecidableEq, Repr

/-- The output streamer loop of start_output_stream (pty.rs lines 100-122),
applied to the sequence of read results the reader will yield. Ok(0) emits a
closed event and breaks; Ok(n) emits one output event whose payload is the
base64 encoding of the n bytes read and continues; Err emits one error event
carrying the description and breaks. An exhausted input list models a reader
still blocked in read. -/
def start_output_stream (session_id : String) : List ReadResult → List TermEvent
  | [] => []
  | ReadResult.ok [] :: _ => [TermEvent.closed session_id]
  | ReadResult.ok bytes :: rest =>
    TermEvent.output session_id (base64Encode bytes) :: start_output_stream session_id rest
  | ReadResult.err e :: _ => [TermEvent.error session_id e]

/-! ## Log-tail data model (src/src-tauri/src/logs/session.rs) -/

/-- Status of a log tail session (logs/session.rs lines 23-30). -/
inductive LogTailStatus where
  | Running
  | Stopped
  | Error
deriving DecidableEq, Repr

/-- Information about a log tail session (logs/session.rs lines 11-21). -/
structure LogTailSessionInfo where
  id : String
  log_group_name : String
  filter_pattern : Option String
  profile : String
  region : String
  status : LogTailStatus
  created_at : Int
deriving DecidableEq, Repr

/-- Internal log tail session state (logs/session.rs lines 32-37). The
AtomicBool stop flag is a Bool; the oneshot Sender is an Option Unit that is
consumed (taken) when the shutdown signal is fired. -/
structure LogTailSession where
  info : LogTailSessionInfo
  stop_signal : Bool
  shutdown_tx : Option Unit
deriving DecidableEq, Repr

/-- LogTailSession::stop (logs/session.rs lines 40-45): store true into the
stop flag, take the oneshot sender and, when it was still present, send on it.
The Bool of the result records whether the send was performed. -/
def LogTailSession.stop (s : LogTailSession) : LogTailSession × Bool :=
  ({ s with stop_signal := true, shutdown_tx := none }, s.shutdown_tx.isSome)

/-- The log tail registry map contents (logs/session.rs lines 48-51). -/
abbrev LogTailRegistry := List (String × LogTailSession)

/-- Create and start a new log tail session (logs/session.rs lines 60-112):
builds the info with status Running, stores the session holding a fresh unset
stop flag and a live oneshot sender, and returns the id. (The spawned
run_log_tail task is modelled separately by runPolls below; chrono now is the
`now` input.) -/
def LogTailRegistry.create_session (reg : LogTailRegistry) (id log_group_name : String)
    (filter_pattern : Option String) (profile region : String) (now : Int) :
    String × LogTailRegistry :=
  let info : LogTailSessionInfo :=
    { id := id, log_group_name := log_group_name, filter_pattern := filter_pattern,
      profile := profile, region := region, status := LogTailStatus.Running,
      created_at := now }
  let session : LogTailSession :=
    { info := info, stop_signal := false, shutdown_tx := some () }
  (id, insertKey reg id session)

/-- Get a session by ID (logs/session.rs lines 114-118). -/
def LogTailRegistry.get_session (reg : LogTailRegistry) (id : String) : Option LogTailSession :=
  lookupKey reg id

/-- Stop and remove a session (logs/session.rs lines 120-128): pop the entry;
when present, run its stop and return true, otherwise return false. The final
state of the removed (no longer registered) session is also returned so that
the effect on the shared cancellation machinery stays observable. -/
def LogTailRegistry.stop_session (reg : LogTailRegistry) (id : String) :
    Bool × LogTailRegistry × Option LogTailSession :=
  match lookupKey reg id with
  | some session => (true, eraseKey reg id, some (session.stop).1)
  | none => (false, reg, none)

/-- List all session infos (logs/session.rs lines 130-137). -/
def LogTailRegistry.list_sessions (reg : LogTailRegistry) : List LogTailSessionInfo :=
  reg.map (fun p => p.2.info)

/-- Update session status (logs/session.rs lines 139-145). Declared dead code
in the source and never invoked by any command. -/
def LogTailRegistry.update_status (reg : LogTailRegistry) (id : String)
    (status : LogTailStatus) : LogTailRegistry :=
  reg.map (fun p =>
    if p.1 = id then (p.1, { p.2 with info := { p.2.info with status := status } }) else p)

/-! ## CloudWatch tail query (src/src-tauri/src/aws/cloudwatch.rs) -/

/-- A log event as mapped from the FilterLogEvents response (cloudwatch.rs
lines 24-30); a missing timestamp is mapped to 0 by unwrap_or. -/
structure LogEvent where
  timestamp : Int
  message : String
  log_stream_name : String
  ingestion_time : Option Int
deriving DecidableEq, Repr

/-- The maximum of the timestamps of a list of events:
events.iter().map(timestamp).max() of cloudwatch.rs lines 271-274. -/
def maxTimestamp : List LogEvent → Option Int
  | [] => none
  | e :: es =>
    match maxTimestamp es with
    | none => some e.timestamp
    | some m => some (max e.timestamp m)

/-- tail_log_events (cloudwatch.rs lines 232-279). The network send outcome is
the input `resp`: on failure the error is wrapped with the source's message
prefix; on success the new timestamp is the maximum observed timestamp plus
one millisecond, or the unchanged since_timestamp when the batch is empty. -/
def tail_log_events (since_timestamp : Int) (resp : Except String (List LogEvent)) :
    Except String (List LogEvent × Int) :=
  match resp with
  | Except.error e => Except.error ("Failed to tail log events: " ++ e)
  | Except.ok events =>
    let new_timestamp :=
      match maxTimestamp events with
      | some t => t + 1
      | none => since_timestamp
    Except.ok (events, new_timestamp)

/-- An event emitted on the Tauri sink by the log-tail side, with its
session-scoped channel: logs:output:{id}, logs:error:{id}, logs:stopped:{id}. -/
inductive LogEmit where
  | output (session_id : String) (events : List LogEvent)
  | error (session_id : String) (message : String)
  | stopped (session_id : String)
deriving DecidableEq, Repr

/-- One poll iteration of the run_log_tail loop body (logs/session.rs lines
180-210): query via tail_log_events; on success with a nonempty batch emit one
output event and advance the watermark to the returned new timestamp; on
success with an empty batch do nothing; on failure emit one error event
carrying the failure description and keep the watermark — the loop is not
exited. Returns the new watermark and the events emitted. -/
def pollStep (session_id : String) (last_timestamp : Int)
    (resp : Except String (List LogEvent)) : Int × List LogEmit :=
  match tail_log_events last_timestamp resp with
  | Except.ok (events, new_timestamp) =>
    if events.isEmpty then (last_timestamp, [])
    else (new_timestamp, [LogEmit.output session_id events])
  | Except.error e => (last_timestamp, [LogEmit.error session_id e])

/-- The run_log_tail polling loop iterated over a finite sequence of query
outcomes, threading the watermark and collecting the emitted events in
order. -/
def runPolls (session_id : String) (last_timestamp : Int) :
    List (Except String (List LogEvent)) → Int × List LogEmit
  | [] => (last_timestamp, [])
  | r :: rs =>
    let step := pollStep session_id last_timestamp r
    let rest := runPolls session_id step.1 rs
    (rest.1, step.2 ++ rest.2)

/-- The CloudWatch API contract for one query: FilterLogEvents with
start_time = watermark only returns events with timestamp at or after the
watermark. A failed query promises nothing. -/
def RespOk (watermark : Int) : Except String (List LogEvent) → Prop
  | Except.ok events => ∀ e ∈ events, watermark ≤ e.timestamp
  | Except.error _ => True

/-- The CloudWatch API contract along a whole run: each query outcome
respects the watermark that run_log_tail passes to that query. -/
def ContractAlong (session_id : String) (watermark : Int) :
    List (Except String (List LogEvent)) → Prop
  | [] => True
  | r :: rs =>
    RespOk watermark r ∧ ContractAlong session_id (pollStep session_id watermark r).1 rs

/-- The timestamps of all events published in output batches, in emission
order. -/
def publishedTs : List LogEmit → List Int
  | [] => []
  | LogEmit.output _ events :: rest => events.map LogEvent.timestamp ++ publishedTs rest
  | LogEmit.error _ _ :: rest => publishedTs rest
  | LogEmit.stopped _ :: rest => publishedTs rest

/-! ## Terminal commands (src/src-tauri/src/commands/terminal_commands.rs) -/

/-- Input for creating a new terminal session (terminal_commands.rs
lines 15-21). -/
structure CreateSessionInput where
  session_type : SessionType
  title : Option String
  shell : Option String
deriving DecidableEq, Repr

/-- Output from creating a new terminal session (terminal_commands.rs
lines 23-28). -/
structure CreateSessionOutput where
  session_id : String
  info : SessionInfo
deriving DecidableEq, Repr

/-- The generated default title (terminal_commands.rs lines 40-49). -/
def defaultTitle : SessionType → String
  | SessionType.EcsExec _ _ container _ _ => "ECS: " ++ container
  | SessionType.SsmSession instance_id _ _ => "EC2: " ++ instance_id
  | SessionType.SsmPortForwarding _ local_port remote_port _ _ _ =>
    "Port Forward: " ++ toString local_port ++ " -> " ++ toString remote_port
  | SessionType.Local => "Local Shell"

/-- The command line built for each session type (terminal_commands.rs
lines 59-148). -/
def buildCommand (st : SessionType) (shell : String) : String × List String :=
  match st with
  | SessionType.EcsExec cluster task container profile region =>
    ("aws", ["ecs", "execute-command", "--cluster", cluster, "--task", task,
             "--container", container, "--interactive", "--command", shell,
             "--profile", profile, "--region", region])
  | SessionType.SsmSession instance_id profile region =>
    ("aws", ["ssm", "start-session", "--target", instance_id,
             "--profile", profile, "--region", region])
  | SessionType.SsmPortForwarding instance_id local_port remote_port remote_host profile region =>
    let base := ["ssm", "start-session", "--target", instance_id]
    let docArgs :=
      match remote_host with
      | some host =>
        ["--document-name", "AWS-StartPortForwardingSessionToRemoteHost",
         "--parameters",
         "host=" ++ host ++ ",portNumber=" ++ toString remote_port ++
           ",localPortNumber=" ++ toString local_port]
      | none =>
        ["--document-name", "AWS-StartPortForwardingSession",
         "--parameters",
         "portNumber=" ++ toString remote_port ++ ",localPortNumber=" ++
           toString local_port]
    ("aws", base ++ docArgs ++ ["--profile", profile, "--region", region])
  | SessionType.Local => (shell, [])

/-- terminal_create_session (terminal_commands.rs lines 30-173). The fresh
UUID is the `sid` input and chrono now is the `now` input; the outcome of the
PTY system calls is `outcome`. On a create_pty_session error the error is
returned and the registry left untouched; on success the reader is taken by
start_output_stream, the status is set to Running and the session is stored
under its id. -/
def terminal_create_session (reg : SessionRegistry) (input : CreateSessionInput)
    (sid : String) (now : Int) (outcome : PtyOutcome) :
    SessionRegistry × Except String CreateSessionOutput :=
  let shell := input.shell.getD ("/bin/sh")
  let title := input.title.getD (defaultTitle input.session_type)
  let info : SessionInfo :=
    { id := sid, title := title, session_type := input.session_type,
      created_at := now, status := SessionStatus.Starting }
  let cmd := buildCommand input.session_type shell
  match create_pty_session info cmd.1 cmd.2 [] outcome with
  | Except.error e => (reg, Except.error e.toMessage)
  | Except.ok session =>
    let session2 : PtySession :=
      { session with
        reader := none
        info := { session.info with status := SessionStatus.Running } }
    let final_info := session2.info
    ((SessionRegistry.create_session reg session2).2,
     Except.ok { session_id := sid, info := final_info })

/-- terminal_write (terminal_commands.rs lines 175-189): look the session up
(not found is an error), base64-decode the input (a decode failure is an
error), then write and flush the bytes under the session's lock. -/
def terminal_write (reg : SessionRegistry) (sid : String) (data : String) :
    SessionRegistry × Except String Unit :=
  match SessionRegistry.get_session reg sid with
  | none => (reg, Except.error ("Session not found: " ++ sid))
  | some session =>
    match base64Decode data with
    | Except.error e => (reg, Except.error ("Failed to decode input: " ++ e))
    | Except.ok bytes =>
      match write_to_pty session bytes with
      | Except.error e => (reg, Except.error e.toMessage)
      | Except.ok session2 => (insertKey reg sid session2, Except.ok ())

/-- terminal_resize (terminal_commands.rs lines 191-200). -/
def terminal_resize (reg : SessionRegistry) (sid : String) (cols rows : Nat) :
    SessionRegistry × Except String Unit :=
  match SessionRegistry.get_session reg sid with
  | none => (reg, Except.error ("Session not found: " ++ sid))
  | some session =>
    match resize_pty session cols rows with
    | Except.error e => (reg, Except.error e.toMessage)
    | Except.ok session2 => (insertKey reg sid session2, Except.ok ())

/-- terminal_close (terminal_commands.rs lines 202-212): pop the entry; when
one was stored, set its status to Closed and kill the child, on the handle
that is no longer registered; always return Ok. The final state of the
removed handle is returned as the middle component. -/
def terminal_close (reg : SessionRegistry) (sid : String) :
    SessionRegistry × Option PtySession × Except String Unit :=
  match SessionRegistry.remove_session reg sid with
  | (some session, reg2) =>
    let session2 : PtySession :=
      { session with
        info := { session.info with status := SessionStatus.Closed }
        child := { session.child with killed := true } }
    (reg2, some session2, Except.ok ())
  | (none, reg2) => (reg2, none, Except.ok ())

/-- terminal_list_sessions (terminal_commands.rs lines 214-218). -/
def terminal_list_sessions (reg : SessionRegistry) : List SessionInfo :=
  SessionRegistry.list_sessions reg

/-- terminal_get_session (terminal_commands.rs lines 220-229). -/
def terminal_get_session (reg : SessionRegistry) (sid : String) :
    Except String SessionInfo :=
  match SessionRegistry.get_session reg sid with
  | none => Except.error ("Session not found: " ++ sid)
  | some session => Except.ok session.info

/-! ## Log commands (src/src-tauri/src/commands/logs_commands.rs) -/

/-- start_log_tail (logs_commands.rs lines 52-73): generate an id (the `sid`
input), create the session and return Ok(id). -/
def start_log_tail (reg : LogTailRegistry) (sid profile region log_group_name : String)
    (filter_pattern : Option String) (now : Int) :
    LogTailRegistry × Except String String :=
  ((LogTailRegistry.create_session reg sid log_group_name filter_pattern
      profile region now).2,
   Except.ok sid)

/-- stop_log_tail (logs_commands.rs lines 75-83): stop_session true maps to
Ok, false to a not-found error. The removed session's final state is passed
through as the middle component. -/
def stop_log_tail (reg : LogTailRegistry) (sid : String) :
    LogTailRegistry × Option LogTailSession × Except String Unit :=
  match LogTailRegistry.stop_session reg sid with
  | (true, reg2, s) => (reg2, s, Except.ok ())
  | (false, reg2, s) => (reg2, s, Except.error ("Session not found: " ++ sid))

/-- list_log_tail_sessions (logs_commands.rs lines 85-89). -/
def list_log_tail_sessions (reg : LogTailRegistry) : Except String (List LogTailSessionInfo) :=
  Except.ok (LogTailRegistry.list_sessions reg)

/-! ## Lock-acquisition traces

Each registry operation's sequence of map-lock and per-session-lock events,
read off the source line by line, with Rust temporary-lifetime semantics: a
MutexGuard temporary created in a statement (or in the scrutinee of an
if-let) lives to the end of that statement (of the whole if-let), so the map
guard in list_sessions and in LogTailRegistry::stop_session is still held
while the per-session locks are taken. -/

inductive LockEvent where
  | mapAcquire
  | mapRelease
  | sessionAcquire (id : String)
  | sessionRelease (id : String)
deriving DecidableEq, Repr

/-- SessionRegistry::create_session (session.rs lines 80-86) and
LogTailRegistry::create_session (logs/session.rs lines 89-91): one map lock
around the insert, no per-session lock. -/
def create_session_lockTrace : List LockEvent :=
  [LockEvent.mapAcquire, LockEvent.mapRelease]

/-- get_session in both registries (session.rs lines 88-91, logs/session.rs
lines 114-118): one map lock around the Arc clone, no per-session lock. -/
def get_session_lockTrace : List LockEvent :=
  [LockEvent.mapAcquire, LockEvent.mapRelease]

/-- SessionRegistry::remove_session (session.rs lines 93-96): one map lock
around the remove, no per-session lock. -/
def remove_session_lockTrace : List LockEvent :=
  [LockEvent.mapAcquire, LockEvent.mapRelease]

/-- The per-session lock/unlock pairs taken by list_sessions for each stored
entry, in map order. -/
def sessionLockEvents {α : Type} : List (String × α) → List LockEvent
  | [] => []
  | p :: rest => LockEvent.sessionAcquire p.1 :: LockEvent.sessionRelease p.1 ::
      sessionLockEvents rest

/-- list_sessions in both registries (session.rs lines 98-105, logs/session.rs
lines 130-137): the map guard is a temporary of the whole collect statement,
so every per-session lock for the info clones is taken while the map lock is
held. -/
def list_sessions_lockTrace {α : Type} (reg : List (String × α)) : List LockEvent :=
  LockEvent.mapAcquire :: (sessionLockEvents reg ++ [LockEvent.mapRelease])

/-- LogTailRegistry::stop_session (logs/session.rs lines 120-128): the map
guard is a temporary of the if-let scrutinee, so when the entry is found the
removed session's lock is taken inside the if-let body while the map lock is
still held. -/
def stop_session_lockTrace (reg : LogTailRegistry) (id : String) : List LockEvent :=
  match lookupKey reg id with
  | some _ => [LockEvent.mapAcquire, LockEvent.sessionAcquire id,
               LockEvent.sessionRelease id, LockEvent.mapRelease]
  | none => [LockEvent.mapAcquire, LockEvent.mapRelease]

/-- Whether a trace ever acquires a per-session lock while the map lock is
held (depth counts currently-held map locks). -/
def sessionLockHeldUnderMapLock (depth : Nat) : List LockEvent → Bool
  | [] => false
  | LockEvent.mapAcquire :: rest => sessionLockHeldUnderMapLock (depth + 1) rest
  | LockEvent.mapRelease :: rest => sessionLockHeldUnderMapLock (depth - 1) rest
  | LockEvent.sessionAcquire _ :: rest =>
    decide (0 < depth) || sessionLockHeldUnderMapLock depth rest
  | LockEvent.sessionRelease _ :: rest => sessionLockHeldUnderMapLock depth rest

/-! ## Command sequences, for registry invariants

The mutating entry points reachable from the frontend (the tauri commands
registered in lib.rs), as op sequences applied from the initial empty
registries. -/

/-- A mutating terminal command invocation. -/
inductive TermOp where
  | create (input : CreateSessionInput) (sid : String) (now : Int) (outcome : PtyOutcome)
  | write (sid : String) (data : String)
  | resize (sid : String) (cols rows : Nat)
  | close (sid : String)

/-- The registry after one terminal command. -/
def applyTermOp (reg : SessionRegistry) : TermOp → SessionRegistry
  | TermOp.create input sid now outcome => (terminal_create_session reg input sid now outcome).1
  | TermOp.write sid data => (terminal_write reg sid data).1
  | TermOp.resize sid cols rows => (terminal_resize reg sid cols rows).1
  | TermOp.close sid => (terminal_close reg sid).1

/-- The registry after a sequence of terminal commands. -/
def runTermOps (reg : SessionRegistry) : List TermOp → SessionRegistry
  | [] => reg
  | op :: ops => runTermOps (applyTermOp reg op) ops

/-- Every registered terminal session has status Running. -/
def termAllRunning (reg : SessionRegistry) : Prop :=
  ∀ p ∈ reg, (Prod.snd p).info.status = SessionStatus.Running

/-- A mutating log-tail command invocation: start_log_tail or stop_log_tail
(LogTailRegistry::update_status and get_session are dead code, invoked by no
command). -/
inductive LogOp where
  | start (sid profile region log_group_name : String)
      (filter_pattern : Option String) (now : Int)
  | stop (sid : String)

/-- The registry after one log-tail command. -/
def applyLogOp (reg : LogTailRegistry) : LogOp → LogTailRegistry
  | LogOp.start sid profile region log_group_name filter_pattern now =>
    (start_log_tail reg sid profile region log_group_name filter_pattern now).1
  | LogOp.stop sid => (stop_log_tail reg sid).1

/-- The registry after a sequence of log-tail commands. -/
def runLogOps (reg : LogTailRegistry) : List LogOp → LogTailRegistry
  | [] => reg
  | op :: ops => runLogOps (applyLogOp reg op) ops

/-- Every registered log-tail session has status Running. -/
def logsAllRunning (reg : LogTailRegistry) : Prop :=
  ∀ p ∈ reg, (Prod.snd p).info.status = LogTailStatus.Running

/-- Every registered log-tail session still holds its oneshot sender. -/
def logsAllArmed (reg : LogTailRegistry) : Prop :=
  ∀ p ∈ reg, (Prod.snd p).shutdown_tx = some ()

/-! ## Sample data for concrete instantiations -/

/-- A concrete SessionInfo for concrete registry states. -/
def sampleInfo (id title : String) : SessionInfo :=
  { id := id, title := title, session_type := SessionType.Local, created_at := 0,
    status := SessionStatus.Running }

/-- A concrete PtySession for concrete registry states. -/
def sampleSession (id title : String) : PtySession :=
  { info := sampleInfo id title, writer := [], child := { killed := false },
    reader := none, cols := 80, rows := 24 }

/-- A concrete LogTailSession for concrete registry states. -/
def sampleLogSession (id : String) : LogTailSession :=
  { info := { id := id, log_group_name := "g", filter_pattern := none,
              profile := "p", region := "r", status := LogTailStatus.Running,
              created_at := 0 },
    stop_signal := false, shutdown_tx := some () }

/-! ## Lemmas on the registry map -/

theorem lookupKey_insertKey_self {α : Type} (m : List (String × α)) (k : String) (v : α) :
    lookupKey (insertKey m k v) k = some v := by
  induction m with
  | nil => simp [insertKey, lookupKey]
  | cons p rest ih =>
    by_cases h : p.1 = k
    · simp [insertKey, lookupKey, h]
    · simp [insertKey, lookupKey, h, ih]

theorem lookupKey_insertKey_ne {α : Type} (m : List (String × α)) (k k' : String) (v : α)
    (h : k' ≠ k) : lookupKey (insertKey m k v) k' = lookupKey m k' := by
  have h2 : ¬ (k = k') := fun hh => h (Eq.symm hh)
  induction m with
  | nil => simp [insertKey, lookupKey, h2]
  | cons p rest ih =>
    by_cases hp : p.1 = k
    · rw [insertKey, if_pos hp]
      rw [lookupKey, lookupKey, hp, if_neg h2, if_neg h2]
    · rw [insertKey, if_neg hp]
      by_cases hp' : p.1 = k'
      · rw [lookupKey, lookupKey, if_pos hp', if_pos hp']
      · rw [lookupKey, lookupKey, if_neg hp', if_neg hp', ih]

theorem lookupKey_eraseKey_self {α : Type} (m : List (String × α)) (k : String) :
    lookupKey (eraseKey m k) k = none := by
  induction m with
  | nil => simp [eraseKey, lookupKey]
  | cons p rest ih =>
    by_cases h : p.1 = k
    · simp [eraseKey, h, ih]
    · simp [eraseKey, lookupKey, h, ih]

theorem mem_insertKey {α : Type} {m : List (String × α)} {k : String} {v : α}
    {p : String × α} (h : p ∈ insertKey m k v) : p = (k, v) ∨ p ∈ m := by
  induction m with
  | nil =>
    simp [insertKey] at h
    exact Or.inl h
  | cons q rest ih =>
    by_cases hq : q.1 = k
    · simp only [insertKey, hq, if_pos] at h
      rcases List.mem_cons.mp h with h1 | h2
      · exact Or.inl h1
      · exact Or.inr (List.mem_cons_of_mem _ h2)
    · simp only [insertKey, hq, if_neg, not_false_iff] at h
      rcases List.mem_cons.mp h with h1 | h2
      · exact Or.inr (h1 ▸ List.mem_cons_self _ _)
      · rcases ih h2 with h3 | h4
        · exact Or.inl h3
        · exact Or.inr (List.mem_cons_of_mem _ h4)

theorem mem_eraseKey {α : Type} {m : List (String × α)} {k : String}
    {p : String × α} (h : p ∈ eraseKey m k) : p ∈ m := by
  induction m with
  | nil => simp [eraseKey] at h
  | cons q rest ih =>
    by_cases hq : q.1 = k
    · simp only [eraseKey, hq, if_pos] at h
      exact List.mem_cons_of_mem _ (ih h)
    · simp only [eraseKey, hq, if_neg, not_false_iff] at h
      rcases List.mem_cons.mp h with h1 | h2
      · exact h1 ▸ List.mem_cons_self _ _
      · exact List.mem_cons_of_mem _ (ih h2)

theorem lookupKey_mem {α : Type} {m : List (String × α)} {k : String} {v : α}
    (h : lookupKey m k = some v) : (k, v) ∈ m := by
  induction m with
  | nil => simp [lookupKey] at h
  | cons q rest ih =>
    by_cases hq : q.1 = k
    · simp only [lookupKey, hq, if_pos] at h
      have : q = (k, v) := by
        cases q
        simp_all
      exact this ▸ List.mem_cons_self _ _
    · simp only [lookupKey, hq, if_neg, not_false_iff] at h
      exact List.mem_cons_of_mem _ (ih h)

/-! ## Lemmas on the poll loop -/

theorem maxTimestamp_le {es : List LogEvent} {m : Int} (h : maxTimestamp es = some m) :
    ∀ e ∈ es, e.timestamp ≤ m := by
  induction es generalizing m with
  | nil => simp [maxTimestamp] at h
  | cons e es ih =>
    intro x hx
    rcases List.mem_cons.mp hx with h1 | h2
    · subst h1
      cases hm : maxTimestamp es with
      | none => simp [maxTimestamp, hm] at h; omega
      | some m2 => simp [maxTimestamp, hm] at h; omega
    · cases hm : maxTimestamp es with
      | none =>
        cases es with
        | nil => simp at h2
        | cons f fs => simp [maxTimestamp] at hm; cases hm2 : maxTimestamp fs <;> simp [hm2] at hm
      | some m2 =>
        have hx2 := ih hm x h2
        simp [maxTimestamp, hm] at h
        omega

theorem maxTimestamp_mem {es : List LogEvent} {m : Int} (h : maxTimestamp es = some m) :
    ∃ e ∈ es, e.timestamp = m := by
  induction es generalizing m with
  | nil => simp [maxTimestamp] at h
  | cons e es ih =>
    cases hm : maxTimestamp es with
    | none =>
      simp [maxTimestamp, hm] at h
      exact ⟨e, List.mem_cons_self _ _, h⟩
    | some m2 =>
      simp [maxTimestamp, hm] at h
      rcases le_or_lt m2 e.timestamp with hle | hlt
      · refine ⟨e, List.mem_cons_self _ _, ?_⟩
        omega
      · rcases ih hm with ⟨f, hf, hfm⟩
        refine ⟨f, List.mem_cons_of_mem _ hf, ?_⟩
        omega

theorem pollStep_ok_nil (sid : String) (last : Int) :
    pollStep sid last (Except.ok []) = (last, []) := rfl

theorem pollStep_ok_cons {evs : List LogEvent} {m : Int} (sid : String) (last : Int)
    (h : maxTimestamp evs = some m) :
    pollStep sid last (Except.ok evs) = (m + 1, [LogEmit.output sid evs]) := by
  cases evs with
  | nil => simp [maxTimestamp] at h
  | cons e es => simp [pollStep, tail_log_events, h]

theorem pollStep_error_eq (sid : String) (last : Int) (msg : String) :
    pollStep sid last (Except.error msg)
      = (last, [LogEmit.error sid ("Failed to tail log events: " ++ msg)]) := rfl

theorem pollStep_advance_ge {sid : String} {last : Int}
    {r : Except String (List LogEvent)} (h : RespOk last r) :
    last ≤ (pollStep sid last r).1 := by
  cases r with
  | error e => simp [pollStep_error_eq]
  | ok evs =>
    cases hm : maxTimestamp evs with
    | none =>
      cases evs with
      | nil => simp [pollStep_ok_nil]
      | cons e es => simp [maxTimestamp] at hm; cases h2 : maxTimestamp es <;> simp [h2] at hm
    | some m =>
      rw [pollStep_ok_cons sid last hm]
      rcases maxTimestamp_mem hm with ⟨e, he, hem⟩
      have := h e he
      simp only
      omega

theorem pollStep_published_ge {sid : String} {last : Int}
    {r : Except String (List LogEvent)} (h : RespOk last r) :
    ∀ t ∈ publishedTs (pollStep sid last r).2, last ≤ t := by
  intro t ht
  cases r with
  | error e => simp [pollStep_error_eq, publishedTs] at ht
  | ok evs =>
    cases hm : maxTimestamp evs with
    | none =>
      cases evs with
      | nil => simp [pollStep_ok_nil, publishedTs] at ht
      | cons e es => simp [maxTimestamp] at hm; cases h2 : maxTimestamp es <;> simp [h2] at hm
    | some m =>
      rw [pollStep_ok_cons sid last hm] at ht
      simp only [publishedTs, List.append_nil, List.mem_map] at ht
      rcases ht with ⟨e, he, rfl⟩
      exact h e he

theorem pollStep_published_lt {sid : String} {last : Int}
    {r : Except String (List LogEvent)} :
    ∀ t ∈ publishedTs (pollStep sid last r).2, t < (pollStep sid last r).1 := by
  intro t ht
  cases r with
  | error e => simp [pollStep_error_eq, publishedTs] at ht
  | ok evs =>
    cases hm : maxTimestamp evs with
    | none =>
      cases evs with
      | nil => simp [pollStep_ok_nil, publishedTs] at ht
      | cons e es => simp [maxTimestamp] at hm; cases h2 : maxTimestamp es <;> simp [h2] at hm
    | some m =>
      rw [pollStep_ok_cons sid last hm] at ht
      rw [pollStep_ok_cons sid last hm]
      simp only [publishedTs, List.append_nil, List.mem_map] at ht
      rcases ht with ⟨e, he, rfl⟩
      have := maxTimestamp_le hm e he
      simp only
      omega

theorem publishedTs_append (l1 l2 : List LogEmit) :
    publishedTs (l1 ++ l2) = publishedTs l1 ++ publishedTs l2 := by
  induction l1 with
  | nil => simp [publishedTs]
  | cons e rest ih =>
    cases e with
    | output sid events => simp [publishedTs, ih]
    | error sid msg => simp [publishedTs, ih]
    | stopped sid => simp [publishedTs, ih]

theorem runPolls_advance_ge {sid : String} {rs : List (Except String (List LogEvent))} :
    ∀ {last : Int}, ContractAlong sid last rs → last ≤ (runPolls sid last rs).1 := by
  induction rs with
  | nil => intro last _; simp [runPolls]
  | cons r rest ih =>
    intro last h
    rcases h with ⟨h1, h2⟩
    have hstep : last ≤ (pollStep sid last r).1 := pollStep_advance_ge h1
    have hrest := ih h2
    simp only [runPolls]
    omega

theorem runPolls_published_ge {sid : String} {rs : List (Except String (List LogEvent))} :
    ∀ {last : Int}, ContractAlong sid last rs →
      ∀ t ∈ publishedTs (runPolls sid last rs).2, last ≤ t := by
  induction rs with
  | nil => intro last _ t ht; simp [runPolls, publishedTs] at ht
  | cons r rest ih =>
    intro last h t ht
    rcases h with ⟨h1, h2⟩
    simp only [runPolls] at ht
    rw [publishedTs_append] at ht
    rcases List.mem_append.mp ht with hl | hr
    · exact pollStep_published_ge h1 t hl
    · have := ih h2 t hr
      have hstep : last ≤ (pollStep sid last r).1 := pollStep_advance_ge h1
      omega

/-! ## Lemmas on base64 -/

theorem base64CharIndex_base64Char_fin :
    ∀ n : Fin 64, base64CharIndex (base64Char n.val) = some n.val := by decide

theorem base64Char_ne_pad_fin : ∀ n : Fin 64, ¬ (base64Char n.val = '=') := by decide

theorem base64CharIndex_base64Char {n : Nat} (h : n < 64) :
    base64CharIndex (base64Char n) = some n :=
  base64CharIndex_base64Char_fin ⟨n, h⟩

theorem base64Char_ne_pad {n : Nat} (h : n < 64) : ¬ (base64Char n = '=') :=
  base64Char_ne_pad_fin ⟨n, h⟩

/-- Strict decoding is a left inverse of encoding on byte lists: the encoded
payload determines exactly the raw bytes. -/
theorem base64DecodeChars_base64Chars :
    ∀ bs : List Nat, (∀ b ∈ bs, b < 256) →
      base64DecodeChars (base64Chars bs) = Except.ok bs
  | a :: b :: c :: rest, h => by
    have ha : a < 256 := h a (by simp)
    have hb : b < 256 := h b (by simp)
    have hc : c < 256 := h c (by simp)
    have h1 : a / 4 < 64 := by omega
    have h2 : a % 4 * 16 + b / 16 < 64 := by omega
    have h3 : b % 16 * 4 + c / 64 < 64 := by omega
    have h4 : c % 64 < 64 := by omega
    have ih := base64DecodeChars_base64Chars rest (fun x hx => h x (by simp [hx]))
    have e1 : a / 4 * 4 + (a % 4 * 16 + b / 16) / 16 = a := by omega
    have e2 : (a % 4 * 16 + b / 16) % 16 * 16 + (b % 16 * 4 + c / 64) / 4 = b := by omega
    have e3 : (b % 16 * 4 + c / 64) % 4 * 64 + c % 64 = c := by omega
    simp only [base64Chars, base64DecodeChars,
      base64CharIndex_base64Char h1, base64CharIndex_base64Char h2,
      base64CharIndex_base64Char h3, base64CharIndex_base64Char h4,
      if_neg (base64Char_ne_pad h3), if_neg (base64Char_ne_pad h4), ih,
      e1, e2, e3]
  | [a, b], h => by
    have ha : a < 256 := h a (by simp)
    have hb : b < 256 := h b (by simp)
    have h1 : a / 4 < 64 := by omega
    have h2 : a % 4 * 16 + b / 16 < 64 := by omega
    have h3 : b % 16 * 4 < 64 := by omega
    have e1 : a / 4 * 4 + (a % 4 * 16 + b / 16) / 16 = a := by omega
    have e2 : (a % 4 * 16 + b / 16) % 16 * 16 + b % 16 * 4 / 4 = b := by omega
    simp [base64Chars, base64DecodeChars,
      base64CharIndex_base64Char h1, base64CharIndex_base64Char h2,
      base64CharIndex_base64Char h3,
      if_neg (base64Char_ne_pad h3), e1, e2]
    omega
  | [a], h => by
    have ha : a < 256 := h a (by simp)
    have h1 : a / 4 < 64 := by omega
    have h2 : a % 4 * 16 < 64 := by omega
    have e1 : a / 4 * 4 + a % 4 * 16 / 16 = a := by omega
    simp [base64Chars, base64DecodeChars,
      base64CharIndex_base64Char h1, base64CharIndex_base64Char h2, e1]
    omega
  | [], _ => rfl

/-- Round trip on the String level. -/
theorem base64Decode_base64Encode {bs : List Nat} (h : ∀ b ∈ bs, b < 256) :
    base64Decode (base64Encode bs) = Except.ok bs :=
  base64DecodeChars_base64Chars bs h

/-! ## Lemmas on the command layer -/

theorem terminal_close_fst (reg : SessionRegistry) (sid : String) :
    (terminal_close reg sid).1 = eraseKey reg sid := by
  unfold terminal_close SessionRegistry.remove_session
  cases h : lookupKey reg sid <;> simp [h]

theorem terminal_write_fst (reg : SessionRegistry) (sid data : String) :
    (terminal_write reg sid data).1 = reg ∨
    ∃ session bytes, lookupKey reg sid = some session ∧
      (terminal_write reg sid data).1
        = insertKey reg sid { session with writer := session.writer ++ bytes } := by
  unfold terminal_write SessionRegistry.get_session
  cases hl : lookupKey reg sid with
  | none => exact Or.inl rfl
  | some session =>
    cases hd : base64Decode data with
    | error e => exact Or.inl rfl
    | ok bytes => exact Or.inr ⟨session, bytes, rfl, rfl⟩

theorem terminal_resize_fst (reg : SessionRegistry) (sid : String) (cols rows : Nat) :
    (terminal_resize reg sid cols rows).1 = reg ∨
    ∃ session, lookupKey reg sid = some session ∧
      (terminal_resize reg sid cols rows).1
        = insertKey reg sid { session with cols := cols, rows := rows } := by
  unfold terminal_resize SessionRegistry.get_session
  cases hl : lookupKey reg sid with
  | none => exact Or.inl rfl
  | some session => exact Or.inr ⟨session, rfl, rfl⟩

theorem stop_log_tail_mem {reg : LogTailRegistry} {sid : String} {p : String × LogTailSession}
    (hp : p ∈ (stop_log_tail reg sid).1) : p ∈ reg := by
  unfold stop_log_tail LogTailRegistry.stop_session at hp
  cases hl : lookupKey reg sid with
  | none => rw [hl] at hp; exact hp
  | some s => rw [hl] at hp; exact mem_eraseKey hp

theorem termAllRunning_insertKey {reg : SessionRegistry} {k : String} {s : PtySession}
    (h : termAllRunning reg) (hs : s.info.status = SessionStatus.Running) :
    termAllRunning (insertKey reg k s) := by
  intro p hp
  rcases mem_insertKey hp with h1 | h2
  · rw [h1]; exact hs
  · exact h p h2

theorem applyTermOp_preserves_running {reg : SessionRegistry} (op : TermOp)
    (h : termAllRunning reg) : termAllRunning (applyTermOp reg op) := by
  cases op with
  | create input sid now outcome =>
    cases outcome with
    | openptyFailed e => exact h
    | spawnFailed e => exact h
    | cloneReaderFailed e => exact h
    | takeWriterFailed e => exact h
    | success child rh => exact termAllRunning_insertKey h rfl
  | write sid data =>
    show termAllRunning (terminal_write reg sid data).1
    rcases terminal_write_fst reg sid data with h1 | ⟨session, bytes, hl, h2⟩
    · rw [h1]; exact h
    · rw [h2]
      exact termAllRunning_insertKey h (h _ (lookupKey_mem hl))
  | resize sid cols rows =>
    show termAllRunning (terminal_resize reg sid cols rows).1
    rcases terminal_resize_fst reg sid cols rows with h1 | ⟨session, hl, h2⟩
    · rw [h1]; exact h
    · rw [h2]
      exact termAllRunning_insertKey h (h _ (lookupKey_mem hl))
  | close sid =>
    show termAllRunning (terminal_close reg sid).1
    rw [terminal_close_fst]
    exact fun p hp => h p (mem_eraseKey hp)

theorem runTermOps_running (ops : List TermOp) :
    ∀ reg : SessionRegistry, termAllRunning reg → termAllRunning (runTermOps reg ops) := by
  induction ops with
  | nil => intro reg h; exact h
  | cons op rest ih => intro reg h; exact ih _ (applyTermOp_preserves_running op h)

theorem logsAllRunning_insertKey {reg : LogTailRegistry} {k : String} {s : LogTailSession}
    (h : logsAllRunning reg) (hs : s.info.status = LogTailStatus.Running) :
    logsAllRunning (insertKey reg k s) := by
  intro p hp
  rcases mem_insertKey hp with h1 | h2
  · rw [h1]; exact hs
  · exact h p h2

theorem applyLogOp_preserves_running {reg : LogTailRegistry} (op : LogOp)
    (h : logsAllRunning reg) : logsAllRunning (applyLogOp reg op) := by
  cases op with
  | start sid profile region log_group_name filter_pattern now =>
    exact logsAllRunning_insertKey h rfl
  | stop sid => exact fun p hp => h p (stop_log_tail_mem hp)

theorem runLogOps_running (ops : List LogOp) :
    ∀ reg : LogTailRegistry, logsAllRunning reg → logsAllRunning (runLogOps reg ops) := by
  induction ops with
  | nil => intro reg h; exact h
  | cons op rest ih => intro reg h; exact ih _ (applyLogOp_preserves_running op h)

theorem logsAllArmed_insertKey {reg : LogTailRegistry} {k : String} {s : LogTailSession}
    (h : logsAllArmed reg) (hs : s.shutdown_tx = some ()) :
    logsAllArmed (insertKey reg k s) := by
  intro p hp
  rcases mem_insertKey hp with h1 | h2
  · rw [h1]; exact hs
  · exact h p h2

theorem applyLogOp_preserves_armed {reg : LogTailRegistry} (op : LogOp)
    (h : logsAllArmed reg) : logsAllArmed (applyLogOp reg op) := by
  cases op with
  | start sid profile region log_group_name filter_pattern now =>
    exact logsAllArmed_insertKey h rfl
  | stop sid => exact fun p hp => h p (stop_log_tail_mem hp)

theorem runLogOps_armed (ops : List LogOp) :
    ∀ reg : LogTailRegistry, logsAllArmed reg → logsAllArmed (runLogOps reg ops) := by
  induction ops with
  | nil => intro reg h; exact h
  | cons op rest ih => intro reg h; exact ih _ (applyLogOp_preserves_armed op h)

/-! ## Claim theorems -/

/-- Claim C1, counterexample: with a session already registered under id "a",
SessionRegistry::create_session of a second session carrying the same id does
not fail — it returns the id normally and silently replaces the stored
session. (The function is infallible: HashMap::insert overwrites, and the
declared SessionAlreadyExists error is never constructed anywhere in the
crate.) -/
theorem c1_duplicate_create_counterexample :
    SessionRegistry.get_session
        (SessionRegistry.create_session [] (sampleSession ("a") ("first"))).2 ("a")
      = some (sampleSession ("a") ("first"))
  ∧ SessionRegistry.create_session
        (SessionRegistry.create_session [] (sampleSession ("a") ("first"))).2
        (sampleSession ("a") ("second"))
      = ("a", [("a", sampleSession ("a") ("second"))]) := by
  constructor
  · rfl
  · rfl

/-- Claim C1 as amended: create_session never fails; it returns the id drawn
from the handle and registers the session under that id, silently replacing
any session already registered under the same id; lookups under any other id
are unaffected. -/
theorem c1_create_registers_under_handle_id (reg : SessionRegistry) (session : PtySession) :
    (SessionRegistry.create_session reg session).1 = session.info.id
  ∧ SessionRegistry.get_session (SessionRegistry.create_session reg session).2
      session.info.id = some session
  ∧ ∀ id : String, id ≠ session.info.id →
      SessionRegistry.get_session (SessionRegistry.create_session reg session).2 id
        = SessionRegistry.get_session reg id := by
  refine ⟨rfl, ?_, ?_⟩
  · exact lookupKey_insertKey_self reg session.info.id session
  · intro id hid
    exact lookupKey_insertKey_ne reg session.info.id id session hid

/-- Witness for the amended C1 at a concrete registry and a concrete
unrelated id. -/
theorem c1_create_registers_under_handle_id_witness :
    SessionRegistry.get_session
        (SessionRegistry.create_session [] (sampleSession ("a") ("first"))).2 ("b")
      = SessionRegistry.get_session [] ("b") :=
  (c1_create_registers_under_handle_id [] (sampleSession ("a") ("first"))).2.2
    ("b") (by decide)

/-- Claim C3: a poll iteration whose query fails publishes exactly one error
event on the session's error channel, carrying the failure description
(wrapped with the tail_log_events message prefix), leaves the watermark
unchanged, and does not exit the loop: the run over the remaining poll
outcomes continues exactly as it would have, with the one error event
prepended. runPolls is total and never propagates the failure to a caller. -/
theorem c3_poll_failure_is_transient (sid : String) (last : Int) (msg : String)
    (rest : List (Except String (List LogEvent))) :
    pollStep sid last (Except.error msg)
        = (last, [LogEmit.error sid ("Failed to tail log events: " ++ msg)])
  ∧ runPolls sid last (Except.error msg :: rest)
        = ((runPolls sid last rest).1,
           LogEmit.error sid ("Failed to tail log events: " ++ msg)
             :: (runPolls sid last rest).2) := by
  constructor
  · rfl
  · simp [runPolls, pollStep_error_eq]

/-- Claim C4: each streamer loop iteration on a read of n > 0 bytes publishes
exactly one output event whose payload is the base64 encoding of exactly
those n bytes (the strict decode of the payload recovers them) and continues
the loop; a read of 0 bytes publishes one closed event and terminates; a read
error publishes one error event carrying the description and terminates. -/
theorem c4_output_streamer_behavior (sid : String) (bytes : List Nat) (msg : String)
    (rest : List ReadResult) (hne : bytes ≠ []) (hbytes : ∀ b ∈ bytes, b < 256) :
    start_output_stream sid (ReadResult.ok bytes :: rest)
        = TermEvent.output sid (base64Encode bytes) :: start_output_stream sid rest
  ∧ base64Decode (base64Encode bytes) = Except.ok bytes
  ∧ start_output_stream sid (ReadResult.ok [] :: rest) = [TermEvent.closed sid]
  ∧ start_output_stream sid (ReadResult.err msg :: rest) = [TermEvent.error sid msg] := by
  refine ⟨?_, base64Decode_base64Encode hbytes, rfl, rfl⟩
  cases bytes with
  | nil => exact absurd rfl hne
  | cons b bs => rfl

/-- Witness for C4 on the two bytes of "hi". -/
theorem c4_output_streamer_behavior_witness :
    start_output_stream ("s") (ReadResult.ok [104, 105] :: [])
        = TermEvent.output ("s") (base64Encode [104, 105]) :: start_output_stream ("s") []
  ∧ base64Decode (base64Encode [104, 105]) = Except.ok [104, 105] :=
  let h := c4_output_streamer_behavior ("s") [104, 105] ("boom") [] (by decide) (by decide)
  ⟨h.1, h.2.1⟩

/-- Claim C5: close always returns Ok; after close(id), get(id) returns the
not-found error and write(id, ...) returns the SessionNotFound error message
for that id; the underlying remove is a pop that returns exactly what get
would have returned and leaves no entry under the id. -/
theorem c5_close_then_get_write_not_found (reg : SessionRegistry) (sid data : String) :
    (terminal_close reg sid).2.2 = Except.ok ()
  ∧ terminal_get_session (terminal_close reg sid).1 sid
      = Except.error ((TerminalError.SessionNotFound sid).toMessage)
  ∧ (terminal_write (terminal_close reg sid).1 sid data).2
      = Except.error ((TerminalError.SessionNotFound sid).toMessage)
  ∧ (SessionRegistry.remove_session reg sid).1 = SessionRegistry.get_session reg sid
  ∧ SessionRegistry.get_session (SessionRegistry.remove_session reg sid).2 sid = none := by
  have hreg : (terminal_close reg sid).1 = eraseKey reg sid := by
    unfold terminal_close SessionRegistry.remove_session
    cases h : lookupKey reg sid <;> simp [h]
  have hok : (terminal_close reg sid).2.2 = Except.ok () := by
    unfold terminal_close SessionRegistry.remove_session
    cases h : lookupKey reg sid <;> simp [h]
  have hnone : SessionRegistry.get_session (eraseKey reg sid) sid = none :=
    lookupKey_eraseKey_self reg sid
  refine ⟨hok, ?_, ?_, rfl, lookupKey_eraseKey_self reg sid⟩
  · rw [hreg]
    unfold terminal_get_session
    rw [hnone]
    rfl
  · rw [hreg]
    unfold terminal_write
    rw [hnone]
    rfl

/-- Claim C9: resize always succeeds (ResizeFailed is never produced) and is
bookkeeping only: the modelled operation performs no external effect, and any
resulting session state differs from the input only in the stored cols and
rows — info (including status), writer, child handle and reader are
untouched. -/
theorem c9_resize_is_bookkeeping_only (session : PtySession) (cols rows : Nat) :
    resize_pty session cols rows
        = Except.ok { session with cols := cols, rows := rows }
  ∧ ∀ s2 : PtySession, resize_pty session cols rows = Except.ok s2 →
      s2.cols = cols ∧ s2.rows = rows ∧ s2.info = session.info
        ∧ s2.writer = session.writer ∧ s2.child = session.child
        ∧ s2.reader = session.reader := by
  refine ⟨rfl, ?_⟩
  intro s2 h
  simp only [resize_pty, Except.ok.injEq] at h
  subst h
  exact ⟨rfl, rfl, rfl, rfl, rfl, rfl⟩

/-- Witness for C9 at a concrete session and geometry. -/
theorem c9_resize_is_bookkeeping_only_witness :
    ({ sampleSession ("a") ("t") with cols := 100, rows := 50 } : PtySession).info
      = (sampleSession ("a") ("t")).info :=
  ((c9_resize_is_bookkeeping_only (sampleSession ("a") ("t")) 100 50).2
    ({ sampleSession ("a") ("t") with cols := 100, rows := 50 }) rfl).2.2.1

/-- Claim C7: when PTY allocation fails the create call returns the
PtyCreationFailed message, when the spawn fails it returns the SpawnFailed
message (reader-clone and writer-take failures are also PtyCreationFailed),
and in every failure case the registry is returned exactly as it was — the
session is never registered. On success the returned output carries the new
id and status Running, and the session is registered under that id with that
info. -/
theorem c7_create_failure_never_registers (reg : SessionRegistry)
    (input : CreateSessionInput) (sid : String) (now : Int) (e : String)
    (child : ChildHandle) (rh : Nat) :
    terminal_create_session reg input sid now (PtyOutcome.openptyFailed e)
        = (reg, Except.error ((TerminalError.PtyCreationFailed e).toMessage))
  ∧ terminal_create_session reg input sid now (PtyOutcome.spawnFailed e)
        = (reg, Except.error ((TerminalError.SpawnFailed e).toMessage))
  ∧ terminal_create_session reg input sid now (PtyOutcome.cloneReaderFailed e)
        = (reg, Except.error ((TerminalError.PtyCreationFailed e).toMessage))
  ∧ terminal_create_session reg input sid now (PtyOutcome.takeWriterFailed e)
        = (reg, Except.error ((TerminalError.PtyCreationFailed e).toMessage))
  ∧ ∀ out : CreateSessionOutput,
      (terminal_create_session reg input sid now (PtyOutcome.success child rh)).2
          = Except.ok out →
        out.session_id = sid ∧ out.info.id = sid
          ∧ out.info.status = SessionStatus.Running
          ∧ SessionRegistry.get_session
              (terminal_create_session reg input sid now (PtyOutcome.success child rh)).1
              sid
            = some { info := out.info, writer := [], child := child, reader := none,
                     cols := DEFAULT_COLS, rows := DEFAULT_ROWS } := by
  refine ⟨rfl, rfl, rfl, rfl, ?_⟩
  intro out hout
  simp only [terminal_create_session, create_pty_session,
    SessionRegistry.create_session, Except.ok.injEq] at hout
  subst hout
  refine ⟨rfl, rfl, rfl, ?_⟩
  simp only [terminal_create_session, create_pty_session, SessionRegistry.create_session]
  exact lookupKey_insertKey_self reg sid _

/-- Witness for C7's success clause at a concrete creation. -/
theorem c7_create_failure_never_registers_witness :
    ((terminal_create_session []
        { session_type := SessionType.Local, title := none, shell := none }
        ("a") 0 (PtyOutcome.success { killed := false } 7)).2.map
          CreateSessionOutput.session_id)
      = Except.ok ("a") := by
  have h := (c7_create_failure_never_registers []
    { session_type := SessionType.Local, title := none, shell := none }
    ("a") 0 ("x") { killed := false } 7).2.2.2.2
    ((terminal_create_session []
        { session_type := SessionType.Local, title := none, shell := none }
        ("a") 0 (PtyOutcome.success { killed := false } 7)).2.toOption.getD
      { session_id := "z", info := sampleInfo ("z") ("z") }) rfl
  rw [show (terminal_create_session []
        { session_type := SessionType.Local, title := none, shell := none }
        ("a") 0 (PtyOutcome.success { killed := false } 7)).2
      = Except.ok ((terminal_create_session []
        { session_type := SessionType.Local, title := none, shell := none }
        ("a") 0 (PtyOutcome.success { killed := false } 7)).2.toOption.getD
      { session_id := "z", info := sampleInfo ("z") ("z") }) from rfl]
  rw [Except.map]
  simp only [h.1]

/-- Claim C2: a successful poll with a nonempty batch advances the watermark
to exactly the maximum observed timestamp plus one millisecond; a successful
empty poll or a failed poll leaves it unchanged. Under the CloudWatch API
contract (a query only returns events at or after its start_time watermark),
the watermark is monotonically non-decreasing along any run, everything
published during a run has a timestamp at or above the watermark the run
started from, and every event published by one poll has a timestamp strictly
below every timestamp published by the rest of the run — so no event with a
timestamp strictly below the pre-advance watermark is ever published twice. -/
theorem c2_watermark_monotone_no_republish (sid : String) (last : Int)
    (evs : List LogEvent) (m : Int) (msg : String)
    (resps : List (Except String (List LogEvent)))
    (r : Except String (List LogEvent)) (rs : List (Except String (List LogEvent))) :
    (maxTimestamp evs = some m →
      pollStep sid last (Except.ok evs) = (m + 1, [LogEmit.output sid evs]))
  ∧ pollStep sid last (Except.ok []) = (last, [])
  ∧ (pollStep sid last (Except.error msg)).1 = last
  ∧ (ContractAlong sid last resps →
      last ≤ (runPolls sid last resps).1
        ∧ ∀ t ∈ publishedTs (runPolls sid last resps).2, last ≤ t)
  ∧ (ContractAlong sid last (r :: rs) →
      ∀ t ∈ publishedTs (pollStep sid last r).2,
        ∀ u ∈ publishedTs (runPolls sid (pollStep sid last r).1 rs).2, t < u) := by
  refine ⟨fun h => pollStep_ok_cons sid last h, pollStep_ok_nil sid last, rfl, ?_, ?_⟩
  · intro hc
    exact ⟨runPolls_advance_ge hc, runPolls_published_ge hc⟩
  · rintro ⟨h1, h2⟩ t ht u hu
    have htlt : t < (pollStep sid last r).1 := pollStep_published_lt t ht
    have huge : (pollStep sid last r).1 ≤ u := runPolls_published_ge h2 u hu
    omega

/-- Witness for C2 at a concrete two-poll run: one batch with timestamps 5
and 7 from watermark 0, then an empty batch from watermark 8. -/
theorem c2_watermark_monotone_no_republish_witness :
    (0 : Int) ≤ (runPolls ("s") 0
      [Except.ok [{ timestamp := 5, message := "a", log_stream_name := "st",
                    ingestion_time := none },
                  { timestamp := 7, message := "b", log_stream_name := "st",
                    ingestion_time := none }],
       Except.ok ([] : List LogEvent)]).1 := by
  have h := (c2_watermark_monotone_no_republish ("s") 0
    [] 0 ("m")
    [Except.ok [{ timestamp := 5, message := "a", log_stream_name := "st",
                  ingestion_time := none },
                { timestamp := 7, message := "b", log_stream_name := "st",
                  ingestion_time := none }],
     Except.ok ([] : List LogEvent)]
    (Except.ok []) []).2.2.2.1
  refine (h ?_).1
  refine ⟨?_, ?_, trivial⟩
  · intro e he
    rcases List.mem_cons.mp he with h1 | h2
    · rw [h1]; norm_num
    · rcases List.mem_cons.mp h2 with h3 | h4
      · rw [h3]; norm_num
      · simp at h4
  · intro e he
    simp [pollStep_ok_cons] at he

/-- Claim C6, counterexample: list_sessions on a registry holding one session
does acquire that session's lock while the map lock is still held — the map
guard is a temporary of the whole collect expression — so the claim that no
registry operation ever takes a per-session lock under the map lock is false
at this concrete input. -/
theorem c6_list_locks_under_map_counterexample :
    sessionLockHeldUnderMapLock 0
        (list_sessions_lockTrace [("a", sampleSession ("a") ("t"))]) = true := by
  rfl

/-- Claim C6 as amended: create, get and remove do hold the map lock only for
the map mutation and take no per-session lock, but list, in both registries,
acquires every stored session's lock while still holding the map lock (to
clone each info); the result of list is nevertheless a snapshot of cloned
summaries — exactly the stored infos — not live references. -/
theorem c6_lock_discipline_amended (reg : SessionRegistry) (lreg : LogTailRegistry) :
    sessionLockHeldUnderMapLock 0 create_session_lockTrace = false
  ∧ sessionLockHeldUnderMapLock 0 get_session_lockTrace = false
  ∧ sessionLockHeldUnderMapLock 0 remove_session_lockTrace = false
  ∧ (reg ≠ [] → sessionLockHeldUnderMapLock 0 (list_sessions_lockTrace reg) = true)
  ∧ (lreg ≠ [] → sessionLockHeldUnderMapLock 0 (list_sessions_lockTrace lreg) = true)
  ∧ SessionRegistry.list_sessions reg = reg.map (fun p => p.2.info)
  ∧ LogTailRegistry.list_sessions lreg = lreg.map (fun p => p.2.info) := by
  refine ⟨rfl, rfl, rfl, ?_, ?_, rfl, rfl⟩
  · intro hne
    cases reg with
    | nil => exact absurd rfl hne
    | cons p rest =>
      simp [list_sessions_lockTrace, sessionLockEvents, sessionLockHeldUnderMapLock]
  · intro hne
    cases lreg with
    | nil => exact absurd rfl hne
    | cons p rest =>
      simp [list_sessions_lockTrace, sessionLockEvents, sessionLockHeldUnderMapLock]

/-- Witness for the amended C6 at concrete one-session registries. -/
theorem c6_lock_discipline_amended_witness :
    sessionLockHeldUnderMapLock 0
        (list_sessions_lockTrace [("a", sampleSession ("a") ("t"))]) = true
  ∧ sessionLockHeldUnderMapLock 0
        (list_sessions_lockTrace [("b", sampleLogSession ("b"))]) = true :=
  ⟨(c6_lock_discipline_amended [("a", sampleSession ("a") ("t"))]
      [("b", sampleLogSession ("b"))]).2.2.2.1 (by decide),
   (c6_lock_discipline_amended [("a", sampleSession ("a") ("t"))]
      [("b", sampleLogSession ("b"))]).2.2.2.2.1 (by decide)⟩

/-- Claim C8: when the id is registered, stop_session returns true and is
exactly the pop of the entry together with the stopped final state of the
removed session — stop flag stored true and the one-shot sender taken in the
same call; the command then reports Ok, the entry is gone, and a second stop
on the same id reports the not-found error, as does stopping an id with no
live entry. On any session still holding its sender (every registered session
does, by the armed invariant over all reachable registries), the take
actually fires the send. -/
theorem c8_stop_dual_cancel_and_remove (reg : LogTailRegistry) (id : String)
    (s : LogTailSession) (ops : List LogOp) :
    (lookupKey reg id = some s →
        LogTailRegistry.stop_session reg id
          = (true, eraseKey reg id,
             some { s with stop_signal := true, shutdown_tx := none })
      ∧ (stop_log_tail reg id).2.2 = Except.ok ()
      ∧ lookupKey (stop_log_tail reg id).1 id = none
      ∧ (stop_log_tail (stop_log_tail reg id).1 id).2.2
          = Except.error ("Session not found: " ++ id))
  ∧ (lookupKey reg id = none →
        LogTailRegistry.stop_session reg id = (false, reg, none)
      ∧ (stop_log_tail reg id).2.2 = Except.error ("Session not found: " ++ id))
  ∧ (s.shutdown_tx = some () → (s.stop).2 = true)
  ∧ logsAllArmed (runLogOps [] ops) := by
  refine ⟨?_, ?_, ?_, runLogOps_armed ops [] (fun p hp => absurd hp (List.not_mem_nil p))⟩
  · intro hl
    have hfst : (stop_log_tail reg id).1 = eraseKey reg id := by
      unfold stop_log_tail LogTailRegistry.stop_session
      rw [hl]
    refine ⟨?_, ?_, ?_, ?_⟩
    · unfold LogTailRegistry.stop_session
      rw [hl]
      rfl
    · unfold stop_log_tail LogTailRegistry.stop_session
      rw [hl]
    · rw [hfst]
      exact lookupKey_eraseKey_self reg id
    · rw [hfst]
      unfold stop_log_tail LogTailRegistry.stop_session
      rw [lookupKey_eraseKey_self]
  · intro hl
    constructor
    · unfold LogTailRegistry.stop_session
      rw [hl]
    · unfold stop_log_tail LogTailRegistry.stop_session
      rw [hl]
  · intro harm
    unfold LogTailSession.stop
    rw [harm]
    rfl

/-- Witness for C8 at a concrete one-session registry. -/
theorem c8_stop_dual_cancel_and_remove_witness :
    (stop_log_tail [("a", sampleLogSession ("a"))] ("a")).2.2 = Except.ok ()
  ∧ (stop_log_tail (stop_log_tail [("a", sampleLogSession ("a"))] ("a")).1 ("a")).2.2
      = Except.error ("Session not found: " ++ "a")
  ∧ ((sampleLogSession ("a")).stop).2 = true :=
  let h := c8_stop_dual_cancel_and_remove [("a", sampleLogSession ("a"))] ("a")
    (sampleLogSession ("a")) []
  ⟨(h.1 rfl).2.1, (h.1 rfl).2.2.2, h.2.2.1 rfl⟩

/-- Claim C10: from the empty registries, any sequence of frontend commands
leaves every registered terminal session and every registered log-tail
session with status Running (terminal sessions are stored with status already
Running, the log status-update operation is dead code); under that invariant
get and list can only ever surface status Running — Starting, Closing,
Closed, Error, Stopped are never visible; the Closed status produced by close
exists only on the popped handle, whose id has already left the registry. -/
theorem c10_only_running_visible (ops : List TermOp) (lops : List LogOp)
    (reg : SessionRegistry) (lreg : LogTailRegistry) (sid : String)
    (i : SessionInfo) (li : LogTailSessionInfo) (ls : LogTailSession) :
    termAllRunning (runTermOps [] ops)
  ∧ logsAllRunning (runLogOps [] lops)
  ∧ (termAllRunning reg → terminal_get_session reg sid = Except.ok i →
      i.status = SessionStatus.Running)
  ∧ (termAllRunning reg → i ∈ terminal_list_sessions reg →
      i.status = SessionStatus.Running)
  ∧ (logsAllRunning lreg → LogTailRegistry.get_session lreg sid = some ls →
      ls.info.status = LogTailStatus.Running)
  ∧ (logsAllRunning lreg → li ∈ LogTailRegistry.list_sessions lreg →
      li.status = LogTailStatus.Running)
  ∧ (∀ s2 : PtySession, (terminal_close reg sid).2.1 = some s2 →
      s2.info.status = SessionStatus.Closed
        ∧ SessionRegistry.get_session (terminal_close reg sid).1 sid = none) := by
  refine ⟨runTermOps_running ops [] (fun p hp => absurd hp (List.not_mem_nil p)),
          runLogOps_running lops [] (fun p hp => absurd hp (List.not_mem_nil p)),
          ?_, ?_, ?_, ?_, ?_⟩
  · intro h hget
    unfold terminal_get_session SessionRegistry.get_session at hget
    cases hl : lookupKey reg sid with
    | none => rw [hl] at hget; exact absurd hget (by simp)
    | some session =>
      rw [hl] at hget
      have : session.info = i := by
        simpa using hget
      rw [← this]
      exact h _ (lookupKey_mem hl)
  · intro h hmem
    unfold terminal_list_sessions SessionRegistry.list_sessions at hmem
    rcases List.mem_map.mp hmem with ⟨p, hp, hpi⟩
    rw [← hpi]
    exact h p hp
  · intro h hget
    exact h _ (lookupKey_mem hget)
  · intro h hmem
    rcases List.mem_map.mp hmem with ⟨p, hp, hpi⟩
    rw [← hpi]
    exact h p hp
  · intro s2 hs2
    rw [terminal_close_fst]
    unfold terminal_close SessionRegistry.remove_session at hs2
    cases hl : lookupKey reg sid with
    | none => rw [hl] at hs2; exact absurd hs2 (by simp)
    | some session =>
      rw [hl] at hs2
      have : _ = s2 := Option.some.inj hs2
      rw [← this]
      exact ⟨rfl, lookupKey_eraseKey_self reg sid⟩

/-- Witness for C10 at a concrete one-session registry for each side. -/
theorem c10_only_running_visible_witness :
    (sampleInfo ("a") ("t")).status = SessionStatus.Running
  ∧ (sampleLogSession ("a")).info.status = LogTailStatus.Running :=
  let h := c10_only_running_visible [] [] [("a", sampleSession ("a") ("t"))]
    [("a", sampleLogSession ("a"))] ("a") (sampleInfo ("a") ("t"))
    (sampleLogSession ("a")).info (sampleLogSession ("a"))
  ⟨h.2.2.1 (fun p hp => by rw [List.mem_singleton.mp hp]; rfl) rfl,
   h.2.2.2.2.1 (fun p hp => by rw [List.mem_singleton.mp hp]; rfl) rfl⟩

end AwsConnector
